import Mathlib

/-!
# Verification of the go2rtc-panel connection lifecycle

Shallow embedding of `src/Go2RTCPanel.tsx` (TSUKUBA-ROVER-TEAM/go2rtc-panel).

The panel is a React component that negotiates a WebRTC session with a go2rtc
server and renders the incoming stream.  We embed its state as an explicit
record `PanelState` (the React `useState` cells and `useRef` cells), and the
async `setupWebRTC` sequence as a pure function `runAttempt` over an
environment record `Env` that supplies the outcome of each awaited platform
call (`createOffer`, `setLocalDescription`, `fetch`, `setRemoteDescription`)
and the track events delivered by the peer connection.  Timers are modelled
with explicit expiry times in milliseconds and a `tick` step that advances
the cooperative event loop by 1 ms, firing a due timeout.

Times and media positions are exact rationals (the source uses JS numbers;
none of the verified claims concern floating-point rounding).
-/

namespace Go2RTC

/-- Embedding of `type Config = { url: string; stream: string }` (Go2RTCPanel.tsx lines 5-8). -/
structure Config where
  url : String
  stream : String
  deriving Repr, DecidableEq

/-- Embedding of `DEFAULT_CONFIG` (Go2RTCPanel.tsx lines 10-13). -/
def DEFAULT_CONFIG : Config :=
  { url := "http://localhost:1984", stream := "cam1" }

/-- Embedding of `Partial<Config>`: the persisted panel state `context.initialState`, in which
each field may be absent (Go2RTCPanel.tsx line 17). -/
structure PartialConfig where
  url : Option String
  stream : Option String
  deriving Repr, DecidableEq

/-- Embedding of the spread merge over defaults (Go2RTCPanel.tsx lines 16-19):
object spread, so a field present in the persisted state wins and an absent
field falls back to the default. -/
def mergeConfig (p : PartialConfig) : Config :=
  { url := p.url.getD DEFAULT_CONFIG.url,
    stream := p.stream.getD DEFAULT_CONFIG.stream }

/-- An incoming remote media stream (opaque; identified by a number). -/
structure MediaStream where
  id : Nat
  deriving Repr, DecidableEq

/-- An `RTCTrackEvent`: carries `event.streams`, the list of streams the new
track belongs to. -/
structure TrackEvent where
  streams : List MediaStream
  deriving Repr, DecidableEq

/-- The `RTCPeerConnection` session handle.  Only the property the embedding
needs is kept: whether `close()` has been called on it. -/
structure PeerConnection where
  closed : Bool
  deriving Repr, DecidableEq

/-- Embedding of `pc.close()`. -/
def closePC (pc : PeerConnection) : PeerConnection :=
  { pc with closed := true }

/-- A `fetch` `Response`, reduced to the fields the source reads:
`ok`, `statusText`, and the text body. -/
structure Response where
  ok : Bool
  statusText : String
  bodyText : String
  deriving Repr, DecidableEq

/-- An HTTP request as issued by `fetch` (method, URL, body). -/
structure Request where
  method : String
  url : String
  body : String
  deriving Repr, DecidableEq

/-- The component's mutable cells: `useState` values (`error`, `status`,
`reconnectCount`) and `useRef` cells (`pcRef`, `reconnectTimeoutRef`,
`reconnectCountRef`, the video element's `srcObject`), plus the current
time `now` in milliseconds used to give armed timeouts an absolute expiry. -/
structure PanelState where
  pc : Option PeerConnection
  timer : Option Nat
  error : Option String
  status : String
  reconnectCount : Nat
  reconnectCountRef : Nat
  remoteDescription : Option String
  attached : Option MediaStream
  now : Nat
  deriving Repr, DecidableEq

/-- Embedding of `triggerReconnect` (Go2RTCPanel.tsx lines 69-77): if a reconnect timeout is
already armed, return immediately; otherwise set status `"Retrying in 2s..."`
and arm a 2000 ms one-shot timeout. -/
def triggerReconnect (st : PanelState) : PanelState :=
  match st.timer with
  | some _ => st
  | none =>
      { st with status := "Retrying in 2s...", timer := some (st.now + 2000) }

/-- The body of the `setTimeout` callback armed by `triggerReconnect`
(Go2RTCPanel.tsx lines 72-76): bump `reconnectCountRef`, bump the
`reconnectCount` state, and null out the timeout ref. -/
def fireTimerCallback (st : PanelState) : PanelState :=
  { st with
      reconnectCountRef := st.reconnectCountRef + 1,
      reconnectCount := st.reconnectCount + 1,
      timer := none }

/-- One millisecond of the cooperative event loop: time advances by 1 and a
timeout whose expiry has been reached fires. -/
def tick (st : PanelState) : PanelState :=
  let t := st.now + 1
  match st.timer with
  | some e => if e ≤ t then fireTimerCallback { st with now := t } else { st with now := t }
  | none => { st with now := t }

/-- The effect dependency array `[config.url, config.stream, reconnectCount]`
(Go2RTCPanel.tsx line 190): the WebRTC setup effect re-runs exactly when this
value changes. -/
structure Deps where
  url : String
  stream : String
  reconnectCount : Nat
  deriving Repr, DecidableEq

/-- The dependency snapshot for a given config and state. -/
def depsOf (cfg : Config) (st : PanelState) : Deps :=
  { url := cfg.url, stream := cfg.stream, reconnectCount := st.reconnectCount }

/-- Embedding of `endpoint.endsWith("/")` (Go2RTCPanel.tsx line 156) over the
string's character list: true exactly when the last character is a slash. -/
def endsWithSlash (url : String) : Bool :=
  url.data.getLast? = some '/'

/-- Embedding of `endpoint.slice(0, -1)` over the string's character list:
the string without its last character. -/
def dropLastChar (url : String) : String :=
  String.mk url.data.dropLast

/-- Embedding of the endpoint normalization (Go2RTCPanel.tsx lines 155-156):
`let endpoint = config.url; if (endpoint.endsWith("/")) endpoint =
endpoint.slice(0, -1);`. -/
def normalizeEndpoint (url : String) : String :=
  if endsWithSlash url then dropLastChar url else url

/-- The single signaling request (Go2RTCPanel.tsx lines 158-161):
`POST {endpoint}/api/webrtc?src={stream}` whose body is the committed local
description's SDP (equal to the generated offer SDP once
`setLocalDescription(offer)` has succeeded). -/
def buildRequest (baseUrl streamName offerSdp : String) : Request :=
  { method := "POST",
    url := normalizeEndpoint baseUrl ++ "/api/webrtc?src=" ++ streamName,
    body := offerSdp }

/-- Interpretation of the `fetch` outcome (Go2RTCPanel.tsx lines 158-167): a
network-level failure propagates as a thrown error; a response with `!ok`
throws `"Failed to connect to go2rtc: " + statusText`; otherwise the text body
is the remote answer SDP. -/
def interpretResponse (net : Except String Response) : Except String String :=
  match net with
  | .error m => .error m
  | .ok r =>
      if !r.ok then .error ("Failed to connect to go2rtc: " ++ r.statusText)
      else .ok r.bodyText

/-- The Signaling Client `negotiate(baseUrl, streamName, localOffer)`
(Go2RTCPanel.tsx lines 155-167): the result of the exchange together with the
list of requests issued (always exactly the one POST). -/
def negotiate (baseUrl streamName offerSdp : String) (net : Except String Response) :
    Except String String × List Request :=
  (interpretResponse net, [buildRequest baseUrl streamName offerSdp])

/-- Platform semantics of `RTCPeerConnection.setRemoteDescription`: on a closed
peer connection the returned promise rejects with an `InvalidStateError`;
otherwise the outcome is whatever the environment supplies. -/
def setRemoteDescriptionOn (pc : PeerConnection) (envResult : Except String Unit) :
    Except String Unit :=
  if pc.closed then .error "InvalidStateError: RTCPeerConnection is closed"
  else envResult

/-- The outcomes of the awaited platform calls inside one `setupWebRTC` run,
plus the track events the peer connection delivers after a successful
negotiation and whether the video element ref is populated. -/
structure Env where
  createOffer : Except String String
  setLocalDescription : Except String Unit
  fetchResult : Except String Response
  setRemoteDescription : Except String Unit
  trackEvents : List TrackEvent
  videoPresent : Bool

/-- The `pc.ontrack` handler (Go2RTCPanel.tsx lines 129-133), applied to each
delivered track event in order: if the video element is present, its
`srcObject` is set to `event.streams[0]` (the first stream of the event,
absent when the list is empty). -/
def fireTrackEvents (videoPresent : Bool) (evs : List TrackEvent) (st : PanelState) :
    PanelState :=
  evs.foldl (fun s ev => if videoPresent then { s with attached := ev.streams.head? } else s) st

/-- The `catch` block of `setupWebRTC` (Go2RTCPanel.tsx lines 170-175):
record the error message, set status `"Error"`, then `triggerReconnect()`.
Returns the new state and the list of `setStatus` calls performed (the
scheduler's own `"Retrying in 2s..."` update is included when it arms). -/
def onCatch (m : String) (st : PanelState) : PanelState × List String :=
  let st1 := { st with error := some m, status := "Error" }
  (triggerReconnect st1,
   if st1.timer.isSome then ["Error"] else ["Error", "Retrying in 2s..."])

/-- Observable trace of one `setupWebRTC` run: the requests issued, how many
session handles were created, how many offers were requested, and the
sequence of `setStatus` calls. -/
structure AttemptLog where
  requests : List Request
  sessionsCreated : Nat
  offersRequested : Nat
  statusUpdates : List String
  deriving Repr, DecidableEq

/-- The continuation of `setupWebRTC` from the point where the signaling
exchange resolves (Go2RTCPanel.tsx lines 163-175): on a thrown error run the
catch block; on success commit the answer via `setRemoteDescription` on the
captured `pc` (which may have been closed by a concurrent teardown), set
status `"Connected"` and let the track events fire. -/
def resumeAfterFetch (env : Env) (pc : PeerConnection) (nres : Except String String)
    (st : PanelState) : PanelState × List String :=
  match nres with
  | .error m => onCatch m st
  | .ok answerSdp =>
      match setRemoteDescriptionOn pc env.setRemoteDescription with
      | .error m => onCatch m st
      | .ok _ =>
          let st1 := { st with remoteDescription := some answerSdp, status := "Connected" }
          (fireTrackEvents env.videoPresent env.trackEvents st1, ["Connected"])

/-- One complete `setupWebRTC` run (Go2RTCPanel.tsx lines 108-176), with the
environment resolving every await without interleaved teardown.  Follows the
source line by line: the empty-config guard, the `"Connecting..."` status,
clearing a previous handle, creating the session handle, generating and
committing the offer, the signaling POST, committing the answer, and the
catch-all on any thrown error. -/
def runAttempt (env : Env) (cfg : Config) (st : PanelState) : PanelState × AttemptLog :=
  if cfg.url = "" ∨ cfg.stream = "" then
    ({ st with status := "Waiting for config" },
     { requests := [], sessionsCreated := 0, offersRequested := 0,
       statusUpdates := ["Waiting for config"] })
  else
    let st1 := { st with status := "Connecting...", error := none, pc := none }
    let pc : PeerConnection := { closed := false }
    let st2 := { st1 with pc := some pc }
    match env.createOffer with
    | .error m =>
        let r := onCatch m st2
        (r.1, { requests := [], sessionsCreated := 1, offersRequested := 1,
                statusUpdates := "Connecting..." :: r.2 })
    | .ok offer =>
        match env.setLocalDescription with
        | .error m =>
            let r := onCatch m st2
            (r.1, { requests := [], sessionsCreated := 1, offersRequested := 1,
                    statusUpdates := "Connecting..." :: r.2 })
        | .ok _ =>
            let n := negotiate cfg.url cfg.stream offer env.fetchResult
            let r := resumeAfterFetch env pc n.1 st2
            (r.1, { requests := n.2, sessionsCreated := 1, offersRequested := 1,
                    statusUpdates := "Connecting..." :: r.2 })

/-- The first failure thrown inside the `try` block of a run in which no
teardown interleaves (the session handle is freshly created, hence open),
or `none` when every step succeeds. -/
def attemptError (env : Env) : Option String :=
  match env.createOffer with
  | .error m => some m
  | .ok _ =>
      match env.setLocalDescription with
      | .error m => some m
      | .ok _ =>
          match interpretResponse env.fetchResult with
          | .error m => some m
          | .ok _ =>
              match env.setRemoteDescription with
              | .error m => some m
              | .ok _ => none

/-- The effect cleanup / teardown (Go2RTCPanel.tsx lines 180-189): cancel an
armed reconnect timeout and null the ref, close the session handle if present
and null the ref.  The second component is the (now closed) handle the
cleanup detached, so that a continuation still holding the same object can be
modelled. -/
def cleanup (st : PanelState) : PanelState × Option PeerConnection :=
  let st1 :=
    match st.timer with
    | some _ => { st with timer := none }
    | none => st
  match st1.pc with
  | some pc => ({ st1 with pc := none }, some (closePC pc))
  | none => (st1, none)

/-- The readable properties of the `<video>` render sink that the latency
monitor inspects: `paused`, `readyState`, the `buffered` time ranges, and
`currentTime`.  Positions are modelled as exact rationals. -/
structure VideoState where
  paused : Bool
  readyState : Nat
  buffered : List (ℚ × ℚ)
  currentTime : ℚ
  deriving DecidableEq

/-- Embedding of `buffered.end(buffered.length - 1)` (Go2RTCPanel.tsx line 89):
the trailing edge of the last buffered range, absent when `buffered` is empty. -/
def bufferedTrailingEdge? (v : VideoState) : Option ℚ :=
  v.buffered.getLast?.map Prod.snd

/-- One 500 ms sample of the latency monitor (Go2RTCPanel.tsx lines 84-99):
return unchanged if `video.paused || video.readyState < 3`; otherwise, when a
buffered range exists, publish `diff = end - video.currentTime` as the latency
display value and, when `diff > 0.5`, jump `video.currentTime` to `end`.
Returns the updated video state and the published latency value. -/
def latencyTick (v : VideoState) (latency : ℚ) : VideoState × ℚ :=
  if v.paused = true ∨ v.readyState < 3 then (v, latency)
  else
    match bufferedTrailingEdge? v with
    | none => (v, latency)
    | some e =>
        let diff := e - v.currentTime
        if diff > 1/2 then ({ v with currentTime := e }, diff) else (v, diff)

/-- HTMLMediaElement readiness level 4, named `HAVE_ENOUGH_DATA` by the
platform: enough data to play through. -/
def HAVE_ENOUGH_DATA : Nat := 4

/-- Modelled from the spec: the skip condition as the claim words it, namely
that a sample is skipped when playback is paused or the decoder has not yet
reached the enough-data-to-play-through readiness level (`HAVE_ENOUGH_DATA`,
numeric value 4).  To be compared with the source's `readyState < 3` guard. -/
def claimSkipsSample (v : VideoState) : Bool :=
  v.paused || decide (v.readyState < HAVE_ENOUGH_DATA)

/-- A quiescent panel state: fresh mount, nothing armed, nothing attached. -/
def initialPanel : PanelState :=
  { pc := none, timer := none, error := none, status := "Disconnected",
    reconnectCount := 0, reconnectCountRef := 0, remoteDescription := none,
    attached := none, now := 0 }

/-- An environment in which every awaited platform call succeeds and a single
track event carrying one stream arrives. -/
def okEnv : Env :=
  { createOffer := .ok "v=0 offer",
    setLocalDescription := .ok (),
    fetchResult := .ok { ok := true, statusText := "OK", bodyText := "v=0 answer" },
    setRemoteDescription := .ok (),
    trackEvents := [{ streams := [{ id := 0 }] }],
    videoPresent := true }

/-- An environment whose signaling request returns a non-success status. -/
def http500Env : Env :=
  { okEnv with
      fetchResult := .ok { ok := false, statusText := "Internal Server Error", bodyText := "" } }

/-- A state with the reconnect timeout armed (expiry at 2000 ms). -/
def armedPanel : PanelState :=
  { initialPanel with timer := some 2000, status := "Retrying in 2s..." }

/-- A state holding both a live session handle and an armed timeout. -/
def fullPanel : PanelState :=
  { initialPanel with pc := some { closed := false }, timer := some 1500 }

/-- A state mid-attempt: open session handle, fetch in flight, no timer armed. -/
def midFlightPanel : PanelState :=
  { initialPanel with pc := some { closed := false }, status := "Connecting..." }

/-- The state produced by the stale continuation: teardown ran while the fetch
was in flight (closing the captured handle and clearing the refs), then the
fetch resolved with a success status and the remaining `setupWebRTC` code ran
against the closed handle. -/
def staleResumed : PanelState :=
  (resumeAfterFetch okEnv (closePC { closed := false }) (.ok "v=0 answer")
    (cleanup midFlightPanel).1).1

/-- A video state at readiness level 3 (future data) with 2 seconds of drift:
the claim's skip condition and the source's guard disagree here. -/
def futureDataVideo : VideoState :=
  { paused := false, readyState := 3, buffered := [(0, 2)], currentTime := 0 }

/-- A video state at readiness level 4 with drift 2 (trailing edge 3,
position 1). -/
def driftVideo : VideoState :=
  { paused := false, readyState := 4, buffered := [(0, 3)], currentTime := 1 }

/-- Shared lemma: a call to the scheduler always leaves a timer armed. -/
theorem triggerReconnect_armed (st : PanelState) :
    (triggerReconnect st).timer.isSome = true := by
  cases h : st.timer <;> simp [triggerReconnect, h]

/-- Shared lemma: the scheduler never touches the recorded error message. -/
theorem triggerReconnect_keeps_error (st : PanelState) :
    (triggerReconnect st).error = st.error := by
  cases h : st.timer <;> simp [triggerReconnect, h]

/-- Shared lemma: the catch block records the thrown message. -/
theorem onCatch_error (m : String) (st : PanelState) :
    (onCatch m st).1.error = some m := by
  simp [onCatch, triggerReconnect_keeps_error]

/-- Shared lemma: the catch block leaves a timer armed. -/
theorem onCatch_timer (m : String) (st : PanelState) :
    (onCatch m st).1.timer.isSome = true := by
  simp [onCatch, triggerReconnect_armed]

/-- Shared lemma: the catch block performs a `setStatus("Error")` call. -/
theorem onCatch_status_error (m : String) (st : PanelState) :
    "Error" ∈ (onCatch m st).2 := by
  simp only [onCatch]
  split <;> simp

/-- Shared lemma: with a non-empty configuration, the first `setStatus` of a
run is always `"Connecting..."`. -/
theorem runAttempt_connecting_head (env : Env) (cfg : Config) (st : PanelState)
    (hu : cfg.url ≠ "") (hs : cfg.stream ≠ "") :
    (runAttempt env cfg st).2.statusUpdates.head? = some "Connecting..." := by
  have h : ¬ (cfg.url = "" ∨ cfg.stream = "") := by
    rintro (h1 | h1)
    · exact hu h1
    · exact hs h1
  cases ho : env.createOffer with
  | error m => simp [runAttempt, if_neg h, ho]
  | ok o =>
      cases hl : env.setLocalDescription with
      | error m => simp [runAttempt, if_neg h, ho, hl]
      | ok u => simp [runAttempt, if_neg h, ho, hl]

/-- C2: for every configuration in which the url field or the stream field is
the empty string, the controller performs no negotiation step — no session
handle is created, no offer is requested, no signaling request is issued —
and its status is the waiting-for-config state. -/
theorem empty_config_waits (env : Env) (cfg : Config) (st : PanelState)
    (h : cfg.url = "" ∨ cfg.stream = "") :
    runAttempt env cfg st =
      ({ st with status := "Waiting for config" },
       { requests := [], sessionsCreated := 0, offersRequested := 0,
         statusUpdates := ["Waiting for config"] }) := by
  unfold runAttempt
  rw [if_pos h]

/-- Witness for C2 at the concrete configuration with an empty url. -/
theorem empty_config_waits_witness :
    runAttempt okEnv { url := "", stream := "cam1" } initialPanel =
      ({ initialPanel with status := "Waiting for config" },
       { requests := [], sessionsCreated := 0, offersRequested := 0,
         statusUpdates := ["Waiting for config"] }) :=
  empty_config_waits okEnv { url := "", stream := "cam1" } initialPanel (Or.inl rfl)

/-- C4: at most one retry timer is armed at any time: a `triggerReconnect`
call made while a timer is already armed is a no-op (it arms no second timer
and changes no state), so two failure callbacks arriving for the same failure
arm exactly one timer; and a call always leaves an armed timer. -/
theorem triggerReconnect_debounced (st : PanelState) :
    (st.timer.isSome = true → triggerReconnect st = st) ∧
    triggerReconnect (triggerReconnect st) = triggerReconnect st ∧
    (triggerReconnect st).timer.isSome = true := by
  cases h : st.timer <;> simp [triggerReconnect, h]

/-- Witness for C4 at a state with the timer already armed. -/
theorem triggerReconnect_debounced_witness :
    triggerReconnect armedPanel = armedPanel ∧
    triggerReconnect (triggerReconnect armedPanel) = triggerReconnect armedPanel :=
  ⟨(triggerReconnect_debounced armedPanel).1 rfl,
   (triggerReconnect_debounced armedPanel).2.1⟩

/-- C9: teardown is idempotent and total: after `cleanup` no timer is armed
and no session handle reference is retained; running it again on the result
changes nothing; a handle that was present is closed and handed back, and a
controller that never created a handle detaches none. -/
theorem cleanup_idempotent (st : PanelState) :
    (cleanup st).1.timer = none ∧
    (cleanup st).1.pc = none ∧
    cleanup (cleanup st).1 = ((cleanup st).1, none) ∧
    (∀ pc, st.pc = some pc →
      (cleanup st).2 = some (closePC pc) ∧ (closePC pc).closed = true) ∧
    (st.pc = none → (cleanup st).2 = none) := by
  cases ht : st.timer <;> cases hp : st.pc <;>
    simp [cleanup, closePC, ht, hp]

/-- Witness for C9 at a state holding both a handle and an armed timer. -/
theorem cleanup_idempotent_witness :
    (cleanup fullPanel).1.timer = none ∧
    (cleanup fullPanel).1.pc = none ∧
    cleanup (cleanup fullPanel).1 = ((cleanup fullPanel).1, none) ∧
    (cleanup fullPanel).2 = some (closePC { closed := false }) :=
  have h := cleanup_idempotent fullPanel
  ⟨h.1, h.2.1, h.2.2.1, (h.2.2.2.1 { closed := false } rfl).1⟩

/-- C10: the initial configuration is the persisted partial configuration
merged over the defaults: a present field wins and an absent field takes its
default; with no persisted fields the result is exactly `DEFAULT_CONFIG`,
whose fields are non-empty, so the first run immediately enters Connecting
rather than waiting for configuration. -/
theorem initial_config_merges_defaults (p : PartialConfig) :
    (mergeConfig p).url = p.url.getD "http://localhost:1984" ∧
    (mergeConfig p).stream = p.stream.getD "cam1" ∧
    (p.url = none → (mergeConfig p).url = "http://localhost:1984") ∧
    (p.stream = none → (mergeConfig p).stream = "cam1") ∧
    mergeConfig { url := none, stream := none } = DEFAULT_CONFIG ∧
    (DEFAULT_CONFIG.url ≠ "" ∧ DEFAULT_CONFIG.stream ≠ "") ∧
    (∀ env st,
      (runAttempt env (mergeConfig { url := none, stream := none }) st).2.statusUpdates.head? =
        some "Connecting...") := by
  refine ⟨rfl, rfl, ?_, ?_, rfl, ⟨by decide, by decide⟩, ?_⟩
  · intro h; simp [mergeConfig, h, DEFAULT_CONFIG]
  · intro h; simp [mergeConfig, h, DEFAULT_CONFIG]
  · intro env st
    exact runAttempt_connecting_head env _ st (by decide) (by decide)

/-- Witness for C10 at a persisted state carrying only a stream name. -/
theorem initial_config_merges_defaults_witness :
    (mergeConfig { url := none, stream := some "cam7" }).url = "http://localhost:1984" ∧
    (mergeConfig { url := none, stream := some "cam7" }).stream = "cam7" :=
  have h := initial_config_merges_defaults { url := none, stream := some "cam7" }
  ⟨h.2.2.1 rfl, h.2.1⟩

/-- Shared lemma: stripping the slash really removes exactly the one trailing
slash: putting it back restores the original url. -/
theorem normalizeEndpoint_strips_one (url : String) (h : endsWithSlash url = true) :
    normalizeEndpoint url ++ "/" = url := by
  simp only [normalizeEndpoint, h, if_true, dropLastChar]
  have h' : url.data.getLast? = some '/' := by simpa [endsWithSlash] using h
  cases url with
  | mk l =>
      induction l using List.reverseRecOn with
      | nil => simp at h'
      | append_singleton as a ih =>
          simp at h'
          subst h'
          apply String.ext
          simp

/-- C8: `negotiate` issues exactly one POST request to
`{baseUrl}/api/webrtc?src={streamName}`, the base url normalized by stripping
at most one trailing slash, with the local session description as the body;
given a response, it raises an error carrying the response's status text if
and only if the status is non-success, and on success returns the body as the
remote answer. -/
theorem negotiate_single_post (baseUrl streamName offerSdp : String) (r : Response) :
    (negotiate baseUrl streamName offerSdp (.ok r)).2 =
      [{ method := "POST",
         url := normalizeEndpoint baseUrl ++ "/api/webrtc?src=" ++ streamName,
         body := offerSdp }] ∧
    (endsWithSlash baseUrl = true → normalizeEndpoint baseUrl ++ "/" = baseUrl) ∧
    (endsWithSlash baseUrl = false → normalizeEndpoint baseUrl = baseUrl) ∧
    ((negotiate baseUrl streamName offerSdp (.ok r)).1 =
        .error ("Failed to connect to go2rtc: " ++ r.statusText) ↔ r.ok = false) ∧
    (r.ok = true → (negotiate baseUrl streamName offerSdp (.ok r)).1 = .ok r.bodyText) := by
  refine ⟨rfl, normalizeEndpoint_strips_one baseUrl, ?_, ?_, ?_⟩
  · intro h; simp [normalizeEndpoint, h]
  · cases hok : r.ok <;> simp [negotiate, interpretResponse, hok]
  · intro h; simp [negotiate, interpretResponse, h]

/-- Witness for C8 at a trailing-slash base url and a failing response. -/
theorem negotiate_single_post_witness :
    normalizeEndpoint "http://localhost:1984/" ++ "/" = "http://localhost:1984/" ∧
    (negotiate "http://localhost:1984/" "cam1" "v=0 offer"
        (.ok { ok := false, statusText := "Internal Server Error", bodyText := "" })).1 =
      .error ("Failed to connect to go2rtc: " ++ "Internal Server Error") :=
  have h := negotiate_single_post "http://localhost:1984/" "cam1" "v=0 offer"
    { ok := false, statusText := "Internal Server Error", bodyText := "" }
  ⟨h.2.1 (by decide), h.2.2.2.1.mpr rfl⟩

/-- Shared lemma: the track handler only ever touches the attached stream,
never the displayed status. -/
theorem fireTrackEvents_status (b : Bool) :
    ∀ (evs : List TrackEvent) (st : PanelState),
      (fireTrackEvents b evs st).status = st.status := by
  intro evs
  induction evs with
  | nil => intro st; rfl
  | cons e rest ih =>
      intro st
      have h1 : fireTrackEvents b (e :: rest) st =
          fireTrackEvents b rest
            (if b then { st with attached := e.streams.head? } else st) := rfl
      rw [h1, ih]
      cases b <;> simp

/-- Shared lemma: when every delivered track event carries the same first
stream, the sink ends up with exactly that stream attached. -/
theorem fireTrackEvents_attached_of_all (s : MediaStream) :
    ∀ (evs : List TrackEvent) (st : PanelState), evs ≠ [] →
      (∀ ev ∈ evs, ev.streams.head? = some s) →
      (fireTrackEvents true evs st).attached = some s := by
  intro evs
  induction evs with
  | nil => intro st h _; exact absurd rfl h
  | cons e rest ih =>
      intro st _ hall
      have h1 : fireTrackEvents true (e :: rest) st =
          fireTrackEvents true rest { st with attached := e.streams.head? } := by
        simp [fireTrackEvents]
      rw [h1]
      by_cases hr : rest = []
      · subst hr
        simpa [fireTrackEvents] using hall e (by simp)
      · exact ih _ hr fun ev hm => hall ev (List.mem_cons_of_mem _ hm)

/-- C1: for every connection attempt in which the offer is generated, the
local description committed, the signaling request returns a success status
and the answer is committed as the remote description, the final state is
Connected and exactly one incoming media stream — the first stream of the
first track event (all delivered track events reference that one stream) —
is attached to the render sink. -/
theorem successful_attempt_connected (env : Env) (cfg : Config) (st : PanelState)
    (s : MediaStream) (o : String) (r : Response)
    (hu : cfg.url ≠ "") (hs : cfg.stream ≠ "")
    (ho : env.createOffer = .ok o)
    (hl : env.setLocalDescription = .ok ())
    (hf : env.fetchResult = .ok r) (hok : r.ok = true)
    (hr : env.setRemoteDescription = .ok ())
    (hv : env.videoPresent = true)
    (hne : env.trackEvents ≠ [])
    (hall : ∀ ev ∈ env.trackEvents, ev.streams.head? = some s) :
    (runAttempt env cfg st).1.status = "Connected" ∧
    (runAttempt env cfg st).1.attached = some s ∧
    (∀ ev0, env.trackEvents.head? = some ev0 → ev0.streams.head? = some s) := by
  have h : ¬ (cfg.url = "" ∨ cfg.stream = "") := by
    rintro (h1 | h1)
    · exact hu h1
    · exact hs h1
  refine ⟨?_, ?_, ?_⟩
  · simp [runAttempt, if_neg h, ho, hl, negotiate, interpretResponse, hf, hok,
      resumeAfterFetch, setRemoteDescriptionOn, hr, hv, fireTrackEvents_status]
  · simp only [runAttempt, if_neg h, ho, hl, negotiate, interpretResponse, hf, hok,
      resumeAfterFetch, setRemoteDescriptionOn, hr, hv, Bool.not_true, if_neg,
      Bool.false_eq_true, if_false]
    exact fireTrackEvents_attached_of_all s env.trackEvents _ hne hall
  · intro ev0 h0
    exact hall ev0 (List.mem_of_mem_head? (Option.mem_def.mpr h0))

/-- Witness for C1: default configuration, a fully successful environment and
one track event carrying stream 0. -/
theorem successful_attempt_connected_witness :
    (runAttempt okEnv DEFAULT_CONFIG initialPanel).1.status = "Connected" ∧
    (runAttempt okEnv DEFAULT_CONFIG initialPanel).1.attached = some { id := 0 } :=
  have h := successful_attempt_connected okEnv DEFAULT_CONFIG initialPanel
    { id := 0 } "v=0 offer" { ok := true, statusText := "OK", bodyText := "v=0 answer" }
    (by decide) (by decide) rfl rfl rfl rfl rfl rfl (by decide) (by decide)
  ⟨h.1, h.2.1⟩

/-- C3: every exception thrown during the connection sequence (offer
generation, local description commit, the signaling call, the success-status
check, or the remote description commit) is caught at the controller
boundary: the thrown message is recorded as the displayed error, a
`setStatus("Error")` transition is performed, and the Reconnect Scheduler is
invoked, leaving a retry timer armed; the run returns a well-defined state,
so no failure propagates to the host panel. -/
theorem attempt_failure_caught (env : Env) (cfg : Config) (st : PanelState) (m : String)
    (hu : cfg.url ≠ "") (hs : cfg.stream ≠ "")
    (hm : attemptError env = some m) :
    (runAttempt env cfg st).1.error = some m ∧
    (runAttempt env cfg st).1.timer.isSome = true ∧
    "Error" ∈ (runAttempt env cfg st).2.statusUpdates ∧
    (runAttempt env cfg st).2.statusUpdates.head? = some "Connecting..." := by
  have h : ¬ (cfg.url = "" ∨ cfg.stream = "") := by
    rintro (h1 | h1)
    · exact hu h1
    · exact hs h1
  cases ho : env.createOffer with
  | error m0 =>
      have hm0 : m0 = m := by simpa [attemptError, ho] using hm
      subst hm0
      refine ⟨?_, ?_, ?_, ?_⟩ <;>
        simp [runAttempt, if_neg h, ho, onCatch_error, onCatch_timer, onCatch_status_error]
  | ok o =>
      cases hl : env.setLocalDescription with
      | error m0 =>
          have hm0 : m0 = m := by simpa [attemptError, ho, hl] using hm
          subst hm0
          refine ⟨?_, ?_, ?_, ?_⟩ <;>
            simp [runAttempt, if_neg h, ho, hl, onCatch_error, onCatch_timer,
              onCatch_status_error]
      | ok u =>
          cases hfi : interpretResponse env.fetchResult with
          | error m0 =>
              have hm0 : m0 = m := by simpa [attemptError, ho, hl, hfi] using hm
              subst hm0
              refine ⟨?_, ?_, ?_, ?_⟩ <;>
                simp [runAttempt, if_neg h, ho, hl, negotiate, hfi, resumeAfterFetch,
                  onCatch_error, onCatch_timer, onCatch_status_error]
          | ok answer =>
              cases hr : env.setRemoteDescription with
              | error m0 =>
                  have hm0 : m0 = m := by simpa [attemptError, ho, hl, hfi, hr] using hm
                  subst hm0
                  refine ⟨?_, ?_, ?_, ?_⟩ <;>
                    simp [runAttempt, if_neg h, ho, hl, negotiate, hfi, resumeAfterFetch,
                      setRemoteDescriptionOn, hr, onCatch_error, onCatch_timer,
                      onCatch_status_error]
              | ok u2 =>
                  exact absurd hm (by simp [attemptError, ho, hl, hfi, hr])

/-- Witness for C3: default configuration, signaling returning HTTP 500. -/
theorem attempt_failure_caught_witness :
    (runAttempt http500Env DEFAULT_CONFIG initialPanel).1.error =
      some ("Failed to connect to go2rtc: " ++ "Internal Server Error") ∧
    (runAttempt http500Env DEFAULT_CONFIG initialPanel).1.timer.isSome = true :=
  have h := attempt_failure_caught http500Env DEFAULT_CONFIG initialPanel
    ("Failed to connect to go2rtc: " ++ "Internal Server Error")
    (by decide) (by decide) rfl
  ⟨h.1, h.2.1⟩

/-- C6 evaluated at the failing input: teardown runs while the fetch is in
flight (the effect cleanup closes the captured handle and clears the refs),
then the fetch resolves with a success status and the rest of the stale
`setupWebRTC` run executes.  The source has no stale-response guard:
committing the answer on the closed handle throws, so the stale run's catch
block records the error, performs status transitions and arms a fresh
2-second reconnect timer — state transitions driven entirely by the stale
result, contradicting the claim.  (The part of the claim the code does
satisfy: the closed session is not resurrected — the status never becomes
Connected and no stream is attached.) -/
theorem stale_negotiation_drives_state :
    (cleanup midFlightPanel).1.timer = none ∧
    (cleanup midFlightPanel).1.pc = none ∧
    staleResumed.error = some "InvalidStateError: RTCPeerConnection is closed" ∧
    staleResumed.status = "Retrying in 2s..." ∧
    staleResumed.timer = some 2000 ∧
    staleResumed.status ≠ "Connected" ∧
    staleResumed.attached = none := by
  refine ⟨rfl, rfl, rfl, rfl, rfl, ?_, rfl⟩
  decide

/-- C7 counterexample: at readiness level 3 (future data, below the
enough-data-to-play-through level 4 the claim names) the claim says the
sample is skipped, but the source's guard is `readyState < 3`, so the sample
goes through: with 2 seconds of drift the monitor publishes the sample and
repositions playback.  The claim as stated is therefore false on the code. -/
theorem latency_skip_threshold_counterexample :
    claimSkipsSample futureDataVideo = true ∧
    (latencyTick futureDataVideo 0).1.currentTime = 2 ∧
    (latencyTick futureDataVideo 0).1 ≠ futureDataVideo ∧
    (latencyTick futureDataVideo 0).2 = 2 := by
  refine ⟨rfl, ?_, ?_, ?_⟩ <;>
    simp [latencyTick, futureDataVideo, bufferedTrailingEdge?] <;> norm_num

/-- C7 amended: a 500 ms sample is skipped exactly when playback is paused or
the decoder is below readiness level 3 (future data) — one level below the
enough-data-to-play-through level the claim names; otherwise drift is
computed as the buffered trailing edge minus the current position and
published, and when drift exceeds 0.5 s playback is repositioned forward to
the trailing edge — never paused, never moved backwards — leaving
non-positive-to-zero residual drift, so a correction never increases drift. -/
theorem latency_monitor_correct (v : VideoState) (l : ℚ) :
    (v.paused = true ∨ v.readyState < 3 → latencyTick v l = (v, l)) ∧
    (v.paused = false → 3 ≤ v.readyState →
      ∀ e, bufferedTrailingEdge? v = some e →
        (latencyTick v l).2 = e - v.currentTime ∧
        (e - v.currentTime > 1/2 →
          (latencyTick v l).1 = { v with currentTime := e } ∧
          (latencyTick v l).1.paused = v.paused ∧
          v.currentTime ≤ (latencyTick v l).1.currentTime ∧
          e - (latencyTick v l).1.currentTime ≤ e - v.currentTime) ∧
        (¬ (e - v.currentTime > 1/2) → (latencyTick v l).1 = v)) := by
  constructor
  · intro h
    simp [latencyTick, h]
  · intro hp hrs e he
    have hcond : ¬ (v.paused = true ∨ v.readyState < 3) := by
      rintro (h1 | h1)
      · simp [hp] at h1
      · omega
    have hred : latencyTick v l =
        (if e - v.currentTime > 1/2 then ({ v with currentTime := e }, e - v.currentTime)
         else (v, e - v.currentTime)) := by
      simp [latencyTick, if_neg hcond, he]
    by_cases hd : e - v.currentTime > 1/2
    · rw [hred, if_pos hd]
      refine ⟨rfl, fun _ => ⟨rfl, rfl, ?_, ?_⟩, fun hc => absurd hd hc⟩
      · show v.currentTime ≤ e
        linarith
      · show e - e ≤ e - v.currentTime
        linarith
    · rw [hred, if_neg hd]
      exact ⟨rfl, fun hc => absurd hc hd, fun _ => rfl⟩

/-- Witness for the amended C7 at a video state with 2 seconds of drift. -/
theorem latency_monitor_correct_witness :
    (latencyTick driftVideo 0).2 = 3 - driftVideo.currentTime ∧
    (latencyTick driftVideo 0).1 = { driftVideo with currentTime := 3 } :=
  have h := (latency_monitor_correct driftVideo 0).2 rfl (by decide) 3 rfl
  ⟨h.1, (h.2.1 (by norm_num [driftVideo])).1⟩

/-- Shared lemma: a tick strictly before the expiry only advances the clock. -/
theorem tick_no_fire (st : PanelState) (e : Nat) (h : st.timer = some e)
    (hlt : st.now + 1 < e) :
    tick st = { st with now := st.now + 1 } := by
  unfold tick
  rw [h]
  simp [Nat.not_le.mpr hlt]

/-- Shared lemma: while the armed timer's expiry is still ahead, iterated
ticks only advance the clock; the timer and both counters are untouched. -/
theorem tick_pending_fields : ∀ (k : Nat) (st : PanelState) (e : Nat),
    st.timer = some e → st.now + k < e →
    (tick^[k] st).timer = some e ∧ (tick^[k] st).now = st.now + k ∧
    (tick^[k] st).reconnectCount = st.reconnectCount ∧
    (tick^[k] st).reconnectCountRef = st.reconnectCountRef := by
  intro k
  induction k with
  | zero =>
      intro st e h _
      refine ⟨h, ?_, rfl, rfl⟩
      show st.now = st.now + 0
      omega
  | succ n ih =>
      intro st e h hlt
      rw [Function.iterate_succ_apply, tick_no_fire st e h (by omega)]
      obtain ⟨t1, t2, t3, t4⟩ :=
        ih { st with now := st.now + 1 } e h (by show st.now + 1 + n < e; omega)
      refine ⟨t1, ?_, t3, t4⟩
      rw [t2]
      show st.now + 1 + n = st.now + (n + 1)
      omega

/-- Shared lemma: with no timer armed, iterated ticks only advance the clock;
the timer stays disarmed and both counters are untouched. -/
theorem tick_idle_fields : ∀ (k : Nat) (st : PanelState), st.timer = none →
    (tick^[k] st).timer = none ∧ (tick^[k] st).now = st.now + k ∧
    (tick^[k] st).reconnectCount = st.reconnectCount ∧
    (tick^[k] st).reconnectCountRef = st.reconnectCountRef := by
  intro k
  induction k with
  | zero =>
      intro st h
      refine ⟨h, ?_, rfl, rfl⟩
      show st.now = st.now + 0
      omega
  | succ n ih =>
      intro st h
      have h1 : tick st = { st with now := st.now + 1 } := by
        unfold tick
        rw [h]
      rw [Function.iterate_succ_apply, h1]
      obtain ⟨t1, t2, t3, t4⟩ := ih { st with now := st.now + 1 } h
      refine ⟨t1, ?_, t3, t4⟩
      rw [t2]
      show st.now + 1 + n = st.now + (n + 1)
      omega

/-- Shared lemma: a tick that reaches the expiry runs the timeout callback:
the timer is cleared and both attempt counters are bumped once. -/
theorem tick_fires_fields (st : PanelState) (e : Nat) (h : st.timer = some e)
    (he : e ≤ st.now + 1) :
    (tick st).timer = none ∧ (tick st).now = st.now + 1 ∧
    (tick st).reconnectCount = st.reconnectCount + 1 ∧
    (tick st).reconnectCountRef = st.reconnectCountRef + 1 := by
  unfold tick
  rw [h]
  simp [he, fireTimerCallback]

/-- Shared lemma: arming at time T fires exactly at T + 2000 ms: the 2000th
tick clears the timer and bumps both attempt counters once. -/
theorem timer_fires_at_expiry (st : PanelState) (h : st.timer = none) :
    (tick^[2000] (triggerReconnect st)).timer = none ∧
    (tick^[2000] (triggerReconnect st)).now = st.now + 2000 ∧
    (tick^[2000] (triggerReconnect st)).reconnectCount = st.reconnectCount + 1 ∧
    (tick^[2000] (triggerReconnect st)).reconnectCountRef = st.reconnectCountRef + 1 := by
  have h1 : triggerReconnect st =
      { st with status := "Retrying in 2s...", timer := some (st.now + 2000) } := by
    unfold triggerReconnect
    rw [h]
  have hsplit : tick^[2000] (triggerReconnect st) =
      tick (tick^[1999] (triggerReconnect st)) :=
    Function.iterate_succ_apply' tick 1999 (triggerReconnect st)
  rw [hsplit, h1]
  obtain ⟨t1, t2, t3, t4⟩ :=
    tick_pending_fields 1999
      { st with status := "Retrying in 2s...", timer := some (st.now + 2000) }
      (st.now + 2000) rfl (by show st.now + 1999 < st.now + 2000; omega)
  obtain ⟨f1, f2, f3, f4⟩ :=
    tick_fires_fields (tick^[1999]
        { st with status := "Retrying in 2s...", timer := some (st.now + 2000) })
      (st.now + 2000) t1 (by rw [t2])
  refine ⟨f1, ?_, ?_, ?_⟩
  · rw [f2, t2]
  · rw [f3, t3]
  · rw [f4, t4]

/-- C5: a failure arming the timer at time T sets its expiry to T + 2000 ms;
for the whole 2000 ms before expiry the timer stays armed, the attempt
counter is unchanged and the effect dependency snapshot is unchanged, so no
new attempt begins sooner; at expiry the armed flag is cleared and the
attempt counter is incremented — exactly once, as it never changes again
while idle — and precisely that counter change flips the effect dependency
snapshot, whose re-run begins with a new Connecting attempt. -/
theorem reconnect_fixed_delay (st : PanelState) (cfg : Config) (env : Env)
    (h : st.timer = none) (hu : cfg.url ≠ "") (hs : cfg.stream ≠ "") :
    (triggerReconnect st).timer = some (st.now + 2000) ∧
    (∀ k, k < 2000 →
      (tick^[k] (triggerReconnect st)).timer = some (st.now + 2000) ∧
      (tick^[k] (triggerReconnect st)).reconnectCount = st.reconnectCount ∧
      depsOf cfg (tick^[k] (triggerReconnect st)) = depsOf cfg st) ∧
    ((tick^[2000] (triggerReconnect st)).timer = none ∧
     (tick^[2000] (triggerReconnect st)).reconnectCount = st.reconnectCount + 1 ∧
     (tick^[2000] (triggerReconnect st)).reconnectCountRef = st.reconnectCountRef + 1) ∧
    (∀ j, (tick^[j] (tick^[2000] (triggerReconnect st))).reconnectCount =
      st.reconnectCount + 1) ∧
    depsOf cfg (tick^[2000] (triggerReconnect st)) ≠ depsOf cfg st ∧
    (runAttempt env cfg (tick^[2000] (triggerReconnect st))).2.statusUpdates.head? =
      some "Connecting..." := by
  have h1 : triggerReconnect st =
      { st with status := "Retrying in 2s...", timer := some (st.now + 2000) } := by
    unfold triggerReconnect
    rw [h]
  have hfire := timer_fires_at_expiry st h
  refine ⟨?_, ?_, ⟨hfire.1, hfire.2.2.1, hfire.2.2.2⟩, ?_, ?_, ?_⟩
  · rw [h1]
  · intro k hk
    rw [h1]
    obtain ⟨t1, t2, t3, t4⟩ :=
      tick_pending_fields k
        { st with status := "Retrying in 2s...", timer := some (st.now + 2000) }
        (st.now + 2000) rfl (by show st.now + k < st.now + 2000; omega)
    refine ⟨t1, t3, ?_⟩
    simp only [depsOf]
    rw [t3]
  · intro j
    rw [(tick_idle_fields j _ hfire.1).2.2.1, hfire.2.2.1]
  · intro heq
    have hpr := congrArg Deps.reconnectCount heq
    simp only [depsOf] at hpr
    rw [hfire.2.2.1] at hpr
    omega
  · exact runAttempt_connecting_head env cfg _ hu hs

/-- Witness for C5 at the quiescent state and default configuration. -/
theorem reconnect_fixed_delay_witness :
    (triggerReconnect initialPanel).timer = some (initialPanel.now + 2000) ∧
    (tick^[2000] (triggerReconnect initialPanel)).timer = none ∧
    (tick^[2000] (triggerReconnect initialPanel)).reconnectCount =
      initialPanel.reconnectCount + 1 :=
  have h := reconnect_fixed_delay initialPanel DEFAULT_CONFIG okEnv rfl
    (by decide) (by decide)
  ⟨h.1, h.2.2.1.1, h.2.2.1.2.1⟩

end Go2RTC
